import Mathlib

/-!
Verification of the AutoTraderPro decision engine (Dead-Skunk/Trading-Program).

Shallow embedding of the Python sources into Lean 4.  Python floats are
modelled as rationals (`ℚ`); the few places where IEEE special values
(NaN / inf) influence control flow are translated into the explicit case
analyses that the pandas/numpy code performs (each such place is noted at
the definition).  Dates are day numbers (`ℤ`), wall-clock instants are
rationals, and Python dicts whose keys may be absent become `Option`
fields read through `Option.getD`, mirroring `dict.get(key, default)`.

Module map:
* `config.py`   → the constant definitions below;
* `regime.py`   → `atr`, `rsi`, `detect_regime`;
* `logic.py`    → `Account`, `can_trade`, `reset_day`, `plan_trade`,
                  `check_exit`;
* `signals.py`  → `generate_signals` (cooldown state threaded explicitly);
* `journal.py`  → `calculate_expectancy`;
* `strategy_optimizer.py` → `update_weights`;
* `backtest.py` → `backtestStep`, `runBacktestSymbol`.
-/

namespace AutoTrader

/-! ## config.py constants (exact rational values of the Python floats) -/

/-- `RISK_PER_TRADE_PCT = 0.0075` (config.py line 54). -/
def RISK_PER_TRADE_PCT : ℚ := 3 / 400

/-- `MAX_DAILY_LOSS_PCT = 0.03` (config.py line 55). -/
def MAX_DAILY_LOSS_PCT : ℚ := 3 / 100

/-- `MAX_TRADES_PER_DAY = 6` (config.py line 56). -/
def MAX_TRADES_PER_DAY : ℕ := 6

/-- `KELLY_CAP_PCT = 0.02` (config.py line 57). -/
def KELLY_CAP_PCT : ℚ := 1 / 50

/-- `CONFIDENCE_CUTOFF = 0.65` (config.py line 64). -/
def CONFIDENCE_CUTOFF : ℚ := 13 / 20

/-- `SIGNAL_COOLDOWN_SEC = 120` (config.py line 65). -/
def SIGNAL_COOLDOWN_SEC : ℚ := 120

/-- `ATR_STOP_MULT = 1.5` (config.py line 66). -/
def ATR_STOP_MULT : ℚ := 3 / 2

/-- `TARGET_RR = 2.0` (config.py line 67). -/
def TARGET_RR : ℚ := 2

/-- `OPTIMIZER_MIN_TRADES = 10` (config.py line 82). -/
def OPTIMIZER_MIN_TRADES : ℕ := 10

/-- `EXPECTANCY_SMOOTHING = 0.2` (config.py line 83). -/
def EXPECTANCY_SMOOTHING : ℚ := 1 / 5

/-! ## Bars -/

/-- One OHLCV bar (the rows of the pandas DataFrames). -/
structure Bar where
  open_ : ℚ
  high : ℚ
  low : ℚ
  close : ℚ
  volume : ℚ
deriving Repr, DecidableEq

/-- Arithmetic mean of a list of rationals (`Series.mean`), 0 on empty
input (that case is never reached by the callers below). -/
def listMean (l : List ℚ) : ℚ :=
  if l.length = 0 then 0 else l.sum / l.length

/-- Last `k` elements of a list (`Series.tail(k)` / a trailing rolling
window). -/
def lastN (k : ℕ) (l : List α) : List α :=
  l.drop (l.length - k)

/-! ## regime.py: ATR -/

/-- True-range series from `regime.atr` (regime.py lines 35-38):
`tr_i = max(high_i - low_i, |high_i - close_{i-1}|, |low_i - close_{i-1}|)`.
At index 0 `close.shift()` is NaN and `DataFrame.max(axis=1)` skips NaN,
so `tr_0 = high_0 - low_0`. -/
def trueRanges : List Bar → List ℚ
  | [] => []
  | b :: bs => (b.high - b.low) :: trueRangesAux b bs
where
  trueRangesAux : Bar → List Bar → List ℚ
  | _, [] => []
  | prev, b :: bs =>
      max (b.high - b.low) (max |b.high - prev.close| |b.low - prev.close|) ::
        trueRangesAux b bs

/-- `regime.atr` (regime.py lines 16-43) with the default `period = 14`:
the last value of `tr.rolling(14).mean()`.  With fewer than 14 bars that
value is NaN and the function returns `0.0` (line 40); on an empty frame
`iloc[-1]` raises and the handler returns `0.0` (lines 41-43). -/
def atr (bars : List Bar) : ℚ :=
  if bars.length < 14 then 0
  else listMean (lastN 14 (trueRanges bars))

/-! ## regime.py: RSI -/

/-- `regime._rsi` (regime.py lines 116-136) with the default
`period = 14`, on the list of closes.

`delta = series.diff()` is NaN at index 0; `delta.where(delta > 0, 0)`
maps it to 0 (NaN compares false), so the gain series is
`max(delta_i, 0)` with a leading 0, and the loss series `max(-delta_i, 0)`
with a leading 0.  `rolling(14).mean()` is NaN with fewer than 14 points,
which makes `rs` NaN and the `np.isnan` guard return `50.0`; an empty
series makes `rs.iloc[-1]` raise, also returning `50.0`.  With ≥ 14
points and a zero loss average, float division gives `rs = inf` (RSI
`100`) when the gain average is positive and `rs = NaN` (RSI `50`) when
it is 0; these IEEE cases are written out explicitly below. -/
def rsi (closes : List ℚ) : ℚ :=
  if closes.length < 14 then 50
  else
    let deltas := (closes.zip (closes.drop 1)).map (fun p => p.2 - p.1)
    let gains := 0 :: deltas.map (fun d => max d 0)
    let losses := 0 :: deltas.map (fun d => max (-d) 0)
    let g := listMean (lastN 14 gains)
    let l := listMean (lastN 14 losses)
    if l = 0 then (if g = 0 then 50 else 100)
    else 100 - 100 / (1 + g / l)

/-! ## regime.py: detect_regime -/

/-- The `context.get("iv", {}).get("current_iv", 0.0)` lookup
(regime.py line 92): the `"iv"` entry may be absent (default `0.0`),
present with a numeric `current_iv`, or bound to a non-dict value, in
which case the inner `.get` raises `AttributeError` and the surrounding
handler fires. -/
inductive IvField where
  | missing : IvField
  | value : ℚ → IvField
  | malformed : IvField
deriving Repr, DecidableEq

/-- Market context passed to `detect_regime`. -/
structure RegimeCtx where
  iv : IvField
deriving Repr, DecidableEq

/-- The implied volatility actually read on the non-raising paths. -/
def impliedOf (ctx : RegimeCtx) : ℚ :=
  match ctx.iv with
  | .value v => v
  | _ => 0

/-- `atr_pct = atr_val / price if price else 0.0` (regime.py line 88);
`if price` is Python float truthiness, i.e. `price ≠ 0`. -/
def atrPctOf (bars : List Bar) (price : ℚ) : ℚ :=
  if price ≠ 0 then atr bars / price else 0

/-- `regime.detect_regime` (regime.py lines 68-110).  `realized` is the
value returned by `realized_vol` (regime.py lines 46-62); that function
involves `np.log`/`np.sqrt` and is therefore kept as a parameter — its
only property used anywhere is that a standard deviation times √252 (or
the 0.0 fallback) is nonnegative.  Inside the `try`, the reachable
exception sources are `df["close"].iloc[-1]` on an empty frame and the
malformed-`"iv"` lookup; `atr`, `_rsi` and `realized_vol` catch their own
exceptions.  `if implied and ...` (line 95) is float truthiness:
`implied ≠ 0 ∧ ...`. -/
def detect_regime (bars : List Bar) (ctx : RegimeCtx) (realized : ℚ) : String :=
  match bars.getLast? with
  | none => "neutral"
  | some lastBar =>
    match ctx.iv with
    | .malformed => "neutral"
    | _ =>
      let price := lastBar.close
      let atr_pct := atrPctOf bars price
      let rsi_val := rsi (bars.map Bar.close)
      let implied := impliedOf ctx
      if implied ≠ 0 ∧ implied > realized * (3 / 2) then "high_iv"
      else if atr_pct > 3 / 200 ∧ 40 < rsi_val ∧ rsi_val < 60 then "trend"
      else if rsi_val > 70 ∨ rsi_val < 30 then "mean_reversion"
      else "neutral"

/-! ## logic.py: Account and guardrails -/

/-- `logic.Account` (logic.py lines 29-38).  `last_reset` is a day
number; `date.today()` becomes the explicit `today` argument of the
methods that read the wall clock. -/
structure Account where
  starting_equity : ℚ
  equity : ℚ
  trades_today : ℕ
  net_pnl_today : ℚ
  last_reset : ℤ
deriving Repr, DecidableEq

/-- `Account.__init__` with the default `starting_equity = 25000.0`,
created on day `today`. -/
def Account.mk0 (today : ℤ) : Account :=
  ⟨25000, 25000, 0, 0, today⟩

/-- `Account.reset_day` (logic.py lines 40-44). -/
def reset_day (a : Account) (today : ℤ) : Account :=
  { a with trades_today := 0, net_pnl_today := 0, last_reset := today }

/-- `Account.can_trade` (logic.py lines 46-60).  Returns the verdict and
the possibly day-reset account, since the method mutates `self` on a date
rollover. -/
def can_trade (a : Account) (today : ℤ) : Bool × Account :=
  let a' := if today ≠ a.last_reset then reset_day a today else a
  if a'.trades_today ≥ MAX_TRADES_PER_DAY then (false, a')
  else if |a'.net_pnl_today| ≥ MAX_DAILY_LOSS_PCT * a'.equity then (false, a')
  else (true, a')

/-- `Account.update_pnl` (logic.py lines 62-66). -/
def update_pnl (a : Account) (pnl : ℚ) : Account :=
  { a with equity := a.equity + pnl,
           net_pnl_today := a.net_pnl_today + pnl,
           trades_today := a.trades_today + 1 }

/-! ## logic.py: plan_trade -/

/-- The trade dict built by `plan_trade` (logic.py lines 120-134),
restricted to the numeric fields the engine reads back (`id`,
`timestamp` and the caller-filled `strategy` label are omitted).
`trailing_stop` and `entry_time` are `Option`s because `check_exit`
reads them through `dict.get` with a default; `plan_trade` always sets
both. -/
structure TradeRec where
  entry : ℚ
  stop : ℚ
  target : ℚ
  size : ℤ
  confidence : ℚ
  trailing_stop : Option ℚ
  entry_time : Option ℚ
deriving Repr, DecidableEq

/-- `logic.plan_trade` (logic.py lines 72-140).  Returns
`(none, account')` for the rejected `{"valid": False}` dict and
`(some trade, account')` for a valid plan.  `tnow` stands for the
`datetime.now().timestamp()` stored in `entry_time`.

Notes on the translation:
* `calc_atr` is `regime.atr`, which catches its own exceptions and never
  returns NaN (it maps NaN to `0.0`), so the `except` at line 94 and the
  `pd.isna` test at line 97 are unreachable and the guard reduces to
  `stop_dist ≤ 0`;
* `int(...)` truncates toward zero, but its argument is
  `max(1, ...) ≥ 1 > 0`, where truncation equals `⌊·⌋`. -/
def plan_trade (a : Account) (today : ℤ) (tnow : ℚ) (entry : ℚ)
    (bars : List Bar) (confidence : ℚ) : Option TradeRec × Account :=
  let ct := can_trade a today
  let a' := ct.2
  if !ct.1 then (none, a')
  else
    let stop_dist0 := atr bars * ATR_STOP_MULT
    let stop_dist := if stop_dist0 ≤ 0 then entry * (1 / 100) else stop_dist0
    let risk_amt := a'.equity * RISK_PER_TRADE_PCT
    let pos_size := if stop_dist > 0 then risk_amt / stop_dist else 0
    let kelly_size := if entry > 0 then a'.equity * KELLY_CAP_PCT / entry else 0
    let final_size : ℤ := ⌊max 1 (min pos_size kelly_size)⌋
    if final_size < 1 then (none, a')
    else if |confidence| < CONFIDENCE_CUTOFF then (none, a')
    else
      let stop := if confidence > 0 then entry - stop_dist else entry + stop_dist
      let target :=
        if confidence > 0 then entry + stop_dist * TARGET_RR
        else entry - stop_dist * TARGET_RR
      (some ⟨entry, stop, target, final_size, confidence, some stop, some tnow⟩, a')

/-! ## logic.py: check_exit -/

/-- `logic.check_exit` (logic.py lines 146-191).  Returns the exit label
(at most one per evaluation, hence an `Option`) together with the trade
after the in-place `trade["trailing_stop"]` assignment.  The `bars`
argument is accepted and unused, as in the source.  With all dict keys
present (as `TradeRec` guarantees) the `try` body cannot raise, so the
`except` path returning `None` is unreachable. -/
def check_exit (t : TradeRec) (price : ℚ) (bars : List Bar) (tnow : ℚ) :
    Option String × TradeRec :=
  let _ := bars
  let stop := t.stop
  let target := t.target
  let trailing := t.trailing_stop.getD t.stop
  let dir : ℤ := if t.confidence > 0 then 1 else -1
  if (dir > 0 ∧ price ≤ stop) ∨ (dir < 0 ∧ price ≥ stop) then (some "STOP", t)
  else if (dir > 0 ∧ price ≥ target) ∨ (dir < 0 ∧ price ≤ target) then
    (some "TARGET", t)
  else
    let step : TradeRec × Bool :=
      if dir > 0 ∧ price > t.entry then
        let newTrail := max trailing (price - (price - t.entry) * (1 / 2))
        ({ t with trailing_stop := some newTrail }, decide (price ≤ newTrail))
      else if dir < 0 ∧ price < t.entry then
        let newTrail := min trailing (price + (t.entry - price) * (1 / 2))
        ({ t with trailing_stop := some newTrail }, decide (price ≥ newTrail))
      else (t, false)
    if step.2 then (some "TRAIL", step.1)
    else if tnow - (step.1.entry_time.getD tnow) > 3600 then (some "TIME", step.1)
    else (none, step.1)

/-! ## journal.py: expectancy -/

/-- A journal record as read back by `calculate_expectancy`
(journal.py lines 122-126): the `strategy` label, whether the
`"outcome"` key is present (set by `update_trade_outcome` on close), and
the `pnl` value.  Records written by `save_trade` always carry `strategy`
and `pnl` (both are set by `plan_trade`). -/
structure JRecord where
  strategy : String
  hasOutcome : Bool
  pnl : ℚ
deriving Repr, DecidableEq

/-- One file of the journal directory, as a list of per-line
`json.loads` results; `none` is a line that fails to parse (skipped by
the expectancy scan, but still counted by the optimizer's line count). -/
def JFile : Type := List (Option JRecord)

/-- The journal directory in sorted filename order
(`sorted(os.listdir(JOURNAL_DIR))`). -/
def Journal : Type := List JFile

/-- `files = sorted(os.listdir(JOURNAL_DIR))[-lookback:]`
(journal.py line 115).  Python's negative slice `[-0:]` is the whole
list, hence the `lookback = 0` case. -/
def lastFiles (lookback : ℕ) (journal : Journal) : Journal :=
  if lookback = 0 then journal else lastN lookback journal

/-- The records collected by the scan loop of `calculate_expectancy`
(journal.py lines 115-127): parseable lines whose strategy matches (or
`strategy = "all"`) and which carry an `"outcome"` key. -/
def selectedTrades (journal : Journal) (strategy : String) (lookback : ℕ) :
    List JRecord :=
  ((lastFiles lookback journal).flatMap id).filterMap fun line =>
    match line with
    | none => none
    | some r =>
      if (strategy = "all" ∨ r.strategy = strategy) ∧ r.hasOutcome then some r
      else none

/-- The unscaled expectancy of journal.py lines 135-142: `wins` are the
pnls `> 0`, `losses` the pnls `≤ 0` (so a pnl of exactly 0 lands among
the losses); `avg_loss` is `abs(sum(losses)/len(losses))`, defaulting to
1 when there are no losses. -/
def rawExpectancyCode (trades : List JRecord) : ℚ :=
  let wins := (trades.filter (fun t => t.pnl > 0)).map JRecord.pnl
  let losses := (trades.filter (fun t => t.pnl ≤ 0)).map JRecord.pnl
  let win_rate : ℚ := (wins.length : ℚ) / (trades.length : ℚ)
  let avg_win := if wins.isEmpty then 0 else wins.sum / (wins.length : ℚ)
  let avg_loss := if losses.isEmpty then 1 else |losses.sum / (losses.length : ℚ)|
  win_rate * avg_win - (1 - win_rate) * avg_loss

/-- `journal.calculate_expectancy` (journal.py lines 102-148): 0 on an
empty selection, the raw expectancy above otherwise, scaled by `n/10`
below 10 trades (lines 145-146). -/
def calculate_expectancy (journal : Journal) (strategy : String)
    (lookback : ℕ) : ℚ :=
  let trades := selectedTrades journal strategy lookback
  if trades.isEmpty then 0
  else if trades.length < 10 then
    rawExpectancyCode trades * ((trades.length : ℚ) / 10)
  else rawExpectancyCode trades

/-- The raw expectancy in the words of the claim for C10:
win-rate × average win − (1 − win-rate) × average absolute loss, with
the (never weight-bearing) convention that the average absolute loss of
an empty loss list is 0.  Stated from the claim, to be compared with
`rawExpectancyCode`. -/
def claimRawExpectancy (trades : List JRecord) : ℚ :=
  let wins := (trades.filter (fun t => t.pnl > 0)).map JRecord.pnl
  let lossesAbs := (trades.filter (fun t => t.pnl ≤ 0)).map (fun t => |t.pnl|)
  let win_rate : ℚ := (wins.length : ℚ) / (trades.length : ℚ)
  let avg_win := if wins.isEmpty then 0 else wins.sum / (wins.length : ℚ)
  let avg_abs_loss :=
    if lossesAbs.isEmpty then 0 else lossesAbs.sum / (lossesAbs.length : ℚ)
  win_rate * avg_win - (1 - win_rate) * avg_abs_loss

/-! ## strategy_optimizer.py -/

/-- The keys of `_strategy_weights` in their dict order
(strategy_optimizer.py lines 19-27). -/
def strategyNames : List String :=
  ["vwap_ema_trend", "breakout", "mean_reversion", "orb",
   "expected_move_fade", "gamma_scalping", "options_flow"]

/-- `max(min(new_val, 3.0), -3.0)` (strategy_optimizer.py line 81). -/
def clampWeight (x : ℚ) : ℚ := max (min x 3) (-3)

/-- The optimizer's gating count (strategy_optimizer.py lines 86-93):
the number of lines across every file of the journal directory,
parseable or not. -/
def tradeCount (journal : Journal) : ℕ :=
  (journal.map List.length).sum

/-- `strategy_optimizer.update_weights` (strategy_optimizer.py lines
69-107).  The in-memory `_strategy_weights` dict is threaded as a
function `w`; the result is the dict after the call together with
`some` of the snapshot persisted by `save_weights`, or `none` when
nothing was written.  `calculate_expectancy(strat)` uses the default
`lookback = 50`. -/
def update_weights (w : String → ℚ) (journal : Journal) :
    (String → ℚ) × Option (String → ℚ) :=
  let updated : String → ℚ := fun s =>
    let e := calculate_expectancy journal s 50
    if e ≠ 0 then
      clampWeight (EXPECTANCY_SMOOTHING * e + (1 - EXPECTANCY_SMOOTHING) * w s)
    else w s
  if tradeCount journal ≥ OPTIMIZER_MIN_TRADES then
    let w' := fun s => if s ∈ strategyNames then updated s else w s
    (w', some w')
  else (w, none)

/-! ## signals.py: generate_signals -/

/-- The module-level `_last_signal_time` dict (signals.py line 19),
threaded explicitly: `none` means the symbol has no entry
(`dict.get(symbol, 0)` then yields 0). -/
def SigState : Type := String → Option ℚ

/-- The `ml_predict(data)` call inside the `try` of signals.py lines
213-222: it returns a probability, `None`, or raises (the `except`
branch sets `signal = 0`). -/
inductive MlOutcome where
  | ok : Option ℚ → MlOutcome
  | exn : MlOutcome
deriving Repr, DecidableEq

/-- The dict returned by `generate_signals`. -/
structure SigOut where
  signal : ℤ
  score : ℚ
  strategies : List (String × ℤ)
deriving Repr, DecidableEq

/-- The strategy checks in their order of appearance in
`generate_signals` (signals.py lines 190-203). -/
def signalOrder : List String :=
  ["vwap_ema_trend", "breakout", "mean_reversion", "expected_move_fade",
   "orb", "gamma_scalping", "options_flow"]

/-- `signals.generate_signals` (signals.py lines 164-225), with the
module state threaded: the result pairs the returned dict with the
`_last_signal_time` dict after the call.

Parameters standing for pure subcomputations:
* `stratVal s` is the value of the strategy function named `s` on the
  given `(bars, context)` — each of the seven strategies is a pure total
  function into {-1, 0, 1} that catches its own exceptions (signals.py
  lines 33-158), so the `except` at lines 204-205 is unreachable and the
  values are data to this function;
* `toggles` is `STRATEGY_TOGGLES.get`, `weights` is the `weights` dict
  (`weights.get(s, 1.0)` becomes `getD 1`);
* `ml` is the outcome of the `ml_predict(data)` call;
* `now` is the `time.time()` captured at line 180. -/
def generate_signals (st : SigState) (now : ℚ) (symbol : String)
    (stratVal : String → ℤ) (toggles : String → Bool)
    (weights : String → Option ℚ) (ml : MlOutcome) : SigOut × SigState :=
  let last := (st symbol).getD 0
  if now - last < SIGNAL_COOLDOWN_SEC then (⟨0, 0, []⟩, st)
  else
    let signals := (signalOrder.filter toggles).map (fun s => (s, stratVal s))
    let score0 := (signals.map (fun p => (p.2 : ℚ) * ((weights p.1).getD 1))).sum
    let n_active := (signals.map (fun p => p.2.natAbs)).sum
    let score := score0 / (max n_active 1 : ℕ)
    let signal : ℤ :=
      match ml with
      | .exn => 0
      | .ok (some v) =>
        if v < CONFIDENCE_CUTOFF then 0
        else if score > 0 then 1 else if score < 0 then -1 else 0
      | .ok none => if score > 0 then 1 else if score < 0 then -1 else 0
    (⟨signal, score, signals⟩, fun s => if s = symbol then some now else st s)

/-! ## backtest.py: run_backtest -/

/-- The `TypeError` message Python raises at backtest.py line 142:
`generate_signals(df_bar, {"symbol": symbol, "disable_ml": True})`
passes two positional arguments, while `signals.generate_signals`
(signals.py line 164) declares three required parameters
`(symbol, data, weights)`.  The call raises before the callee body runs,
and `run_backtest` has no handler around the loop. -/
def generateSignalsArityError : String :=
  "TypeError: generate_signals() missing 1 required positional argument: weights"

/-- One iteration of the per-bar loop of `run_backtest`
(backtest.py lines 137-157): slice `df_bar = eq_df.loc[:ts]` — the bars
up to and including index `i` — skip if empty, then call
`generate_signals`, which raises the arity `TypeError` above. -/
def backtestStep (bars : List Bar) (i : ℕ) : Except String Unit :=
  let df_bar := bars.take (i + 1)
  if df_bar.isEmpty then .ok ()
  else .error generateSignalsArityError

/-- The per-symbol portion of `run_backtest` (backtest.py lines
132-181): iterate the bar loop over all indices, propagating the first
uncaught exception. -/
def runBacktestSymbol (bars : List Bar) : Except String Unit :=
  (List.range bars.length).foldl
    (fun acc i => acc.bind (fun _ => backtestStep bars i)) (.ok ())

/-! ## Theorems -/

/-- C1 (counterexample).  The claim "a valid trade always has
`stop ≠ target`" fails at entry price 0 with bars too short for the ATR:
`atr` returns 0, the 1%-of-entry fallback is also 0, and `plan_trade`
returns a valid size-1 trade whose stop and target both equal 0. -/
theorem plan_trade_stop_eq_target_cex :
    (plan_trade (Account.mk0 0) 0 0 0 [] 1).1 =
      some ⟨0, 0, 0, 1, 1, some 0, some 0⟩ ∧
    (TradeRec.mk 0 0 0 1 1 (some 0) (some 0)).stop =
      (TradeRec.mk 0 0 0 1 1 (some 0) (some 0)).target := by
  refine ⟨?_, rfl⟩
  norm_num [plan_trade, can_trade, Account.mk0, reset_day, atr,
    MAX_TRADES_PER_DAY, MAX_DAILY_LOSS_PCT, ATR_STOP_MULT, RISK_PER_TRADE_PCT,
    KELLY_CAP_PCT, CONFIDENCE_CUTOFF, TARGET_RR]

/-- C1 (amended).  Every trade `plan_trade` returns as valid has size at
least 1, and when the entry price is nonzero its stop differs from its
target (the stop distance is then nonzero, and stop and target sit
`stop_dist` and `TARGET_RR·stop_dist` on opposite sides of the entry). -/
theorem plan_trade_valid_size_stop_target (a : Account) (today : ℤ)
    (tnow entry : ℚ) (bars : List Bar) (confidence : ℚ) (t : TradeRec)
    (hv : (plan_trade a today tnow entry bars confidence).1 = some t) :
    1 ≤ t.size ∧ (entry ≠ 0 → t.stop ≠ t.target) := by
  unfold plan_trade at hv
  by_cases hct : (can_trade a today).1
  case neg => simp [hct] at hv
  simp only [hct, Bool.not_true, Bool.false_eq_true, if_false] at hv
  set d : ℚ := if atr bars * ATR_STOP_MULT ≤ 0 then entry * (1 / 100)
    else atr bars * ATR_STOP_MULT with hd
  have hdnz : entry ≠ 0 → d ≠ 0 := by
    intro he
    rw [hd]
    split_ifs with h
    · exact mul_ne_zero he (by norm_num)
    · exact ne_of_gt (lt_of_not_le h)
  split_ifs at hv
  all_goals obtain rfl := Option.some.inj hv
  all_goals refine ⟨Int.le_floor.mpr (by exact_mod_cast le_max_left _ _),
    fun he habs => hdnz he ?_⟩
  all_goals first
    | (have h' : entry - d = entry + d * TARGET_RR := habs
       unfold TARGET_RR at h'
       linarith)
    | (have h' : entry + d = entry - d * TARGET_RR := habs
       unfold TARGET_RR at h'
       linarith)

/-- C1 witness: at entry 1000 `plan_trade` returns the valid trade
(1000, 990, 1020, size 1); the amended theorem applied there gives
size ≥ 1 and stop ≠ target. -/
theorem plan_trade_valid_size_stop_target_witness :
    1 ≤ (TradeRec.mk 1000 990 1020 1 1 (some 990) (some 0)).size ∧
    ((1000 : ℚ) ≠ 0 →
      (TradeRec.mk 1000 990 1020 1 1 (some 990) (some 0)).stop ≠
        (TradeRec.mk 1000 990 1020 1 1 (some 990) (some 0)).target) :=
  plan_trade_valid_size_stop_target (Account.mk0 0) 0 0 1000 [] 1
    ⟨1000, 990, 1020, 1, 1, some 990, some 0⟩
    (by norm_num [plan_trade, can_trade, Account.mk0, reset_day, atr,
      MAX_TRADES_PER_DAY, MAX_DAILY_LOSS_PCT, ATR_STOP_MULT,
      RISK_PER_TRADE_PCT, KELLY_CAP_PCT, CONFIDENCE_CUTOFF, TARGET_RR])

/-- C2.  Guardrail: on a call whose wall-clock date still equals the
account's `last_reset`, a `trades_today` counter at (or beyond)
`MAX_TRADES_PER_DAY` makes `plan_trade` return the invalid result for
every entry price, bar series and confidence; and on a date rollover
`can_trade` behaves exactly as on the day-reset account (counters are
reset before the guardrail check). -/
theorem plan_trade_daily_guardrail (a : Account) (today : ℤ)
    (tnow entry : ℚ) (bars : List Bar) (confidence : ℚ) :
    (today = a.last_reset → MAX_TRADES_PER_DAY ≤ a.trades_today →
      (plan_trade a today tnow entry bars confidence).1 = none) ∧
    (today ≠ a.last_reset →
      can_trade a today = can_trade (reset_day a today) today) := by
  constructor
  · intro hday hmax
    have hct : (can_trade a today).1 = false := by
      unfold can_trade
      simp [hday, hmax]
    unfold plan_trade
    simp [hct]
  · intro hday
    unfold can_trade reset_day
    simp [hday]

/-- C2 witness: with six trades already taken today, a `plan_trade` call
on the same day is rejected; and a rollover call equals the call on the
reset account. -/
theorem plan_trade_daily_guardrail_witness :
    (plan_trade ⟨25000, 25000, 6, 0, 0⟩ 0 0 5 [] 1).1 = none ∧
    can_trade ⟨25000, 25000, 6, 0, 0⟩ 1 =
      can_trade (reset_day ⟨25000, 25000, 6, 0, 0⟩ 1) 1 :=
  ⟨(plan_trade_daily_guardrail ⟨25000, 25000, 6, 0, 0⟩ 0 0 5 [] 1).1
      rfl (by decide),
   (plan_trade_daily_guardrail ⟨25000, 25000, 6, 0, 0⟩ 1 0 0 [] 0).2
      (by decide)⟩

/-- C3.  `check_exit` returns at most one outcome per evaluation (its
result is a single `Option`), and on a tick whose price satisfies both
the stop-breach and the target-breach condition of the trade's direction
the outcome is `STOP`: the stop check is first in the fixed priority
order stop > target > trailing > time. -/
theorem check_exit_stop_priority (t : TradeRec) (price : ℚ)
    (bars : List Bar) (tnow : ℚ)
    (hstop : (0 < t.confidence ∧ price ≤ t.stop) ∨
      (¬ 0 < t.confidence ∧ t.stop ≤ price))
    (_htarget : (0 < t.confidence ∧ t.target ≤ price) ∨
      (¬ 0 < t.confidence ∧ price ≤ t.target)) :
    (check_exit t price bars tnow).1 = some "STOP" := by
  unfold check_exit
  rcases hstop with ⟨hc, hp⟩ | ⟨hc, hp⟩
  · simp [hc, hp]
  · simp [hc, hp]

/-- C3 witness: a long trade with stop 100 and target 50 and a tick at
price 75 breaches both bounds; the returned outcome is `STOP`. -/
theorem check_exit_stop_priority_witness :
    (check_exit ⟨100, 100, 50, 1, 1, some 100, some 0⟩ 75 [] 0).1 =
      some "STOP" :=
  check_exit_stop_priority ⟨100, 100, 50, 1, 1, some 100, some 0⟩ 75 [] 0
    (Or.inl ⟨by norm_num, by norm_num⟩) (Or.inl ⟨by norm_num, by norm_num⟩)

/-- C5 (evaluation at the failing input).  The spec requires rejection
when `floor(min(risk-based, Kelly-capped))` is 0 or below, and logic.py
lines 108-110 contain exactly that rejection branch — but line 106
computes `int(max(1, min(pos_size, kelly_size)))`, so the size is
clamped up to 1 before the check and the branch is unreachable.  At a
fresh 25000-equity account with entry 1000 and bars too short for the
ATR, the risk-based size is 18.75 and the Kelly-capped size 0.5, so the
claimed quantity floors to 0, yet `plan_trade` returns a valid size-1
trade instead of rejecting. -/
theorem plan_trade_size_floor_not_rejected :
    (plan_trade (Account.mk0 0) 0 0 1000 [] 1).1 =
      some ⟨1000, 990, 1020, 1, 1, some 990, some 0⟩ ∧
    (⌊min ((25000 : ℚ) * RISK_PER_TRADE_PCT / 10)
        ((25000 : ℚ) * KELLY_CAP_PCT / 1000)⌋ : ℤ) ≤ 0 := by
  constructor
  · norm_num [plan_trade, can_trade, Account.mk0, reset_day, atr,
      MAX_TRADES_PER_DAY, MAX_DAILY_LOSS_PCT, ATR_STOP_MULT,
      RISK_PER_TRADE_PCT, KELLY_CAP_PCT, CONFIDENCE_CUTOFF, TARGET_RR]
  · have : min ((25000 : ℚ) * RISK_PER_TRADE_PCT / 10)
        ((25000 : ℚ) * KELLY_CAP_PCT / 1000) = 1 / 2 := by
      norm_num [RISK_PER_TRADE_PCT, KELLY_CAP_PCT]
    rw [this]
    norm_num [Int.floor_eq_zero_iff]

/-- C6.  `check_exit` never changes the trade's `entry`, `stop`,
`target`, `size`, `confidence` (or `entry_time`) fields; the only field
it writes is `trailing_stop`, and the effective trailing stop
(`trade.get("trailing_stop", stop)`) never decreases for a long trade
(`confidence > 0`) and never increases for a short one. -/
theorem check_exit_frame_trailing (t : TradeRec) (price : ℚ)
    (bars : List Bar) (tnow : ℚ) :
    ((check_exit t price bars tnow).2.entry = t.entry ∧
     (check_exit t price bars tnow).2.stop = t.stop ∧
     (check_exit t price bars tnow).2.target = t.target ∧
     (check_exit t price bars tnow).2.size = t.size ∧
     (check_exit t price bars tnow).2.confidence = t.confidence ∧
     (check_exit t price bars tnow).2.entry_time = t.entry_time) ∧
    (0 < t.confidence →
      t.trailing_stop.getD t.stop ≤
        (check_exit t price bars tnow).2.trailing_stop.getD
          (check_exit t price bars tnow).2.stop) ∧
    (t.confidence ≤ 0 →
      (check_exit t price bars tnow).2.trailing_stop.getD
          (check_exit t price bars tnow).2.stop ≤
        t.trailing_stop.getD t.stop) := by
  unfold check_exit
  by_cases hc : t.confidence > 0 <;>
    simp only [hc, if_true, if_false] <;>
    split_ifs <;>
    simp_all

/-- C6 witness: a long trade at entry 100 with stop 90 seeing price 110;
all fixed fields are preserved and the effective trailing stop does not
decrease. -/
theorem check_exit_frame_trailing_witness :
    (((check_exit ⟨100, 90, 120, 1, 1, some 90, some 0⟩ 110 [] 0).2.entry =
        (100 : ℚ) ∧
      (check_exit ⟨100, 90, 120, 1, 1, some 90, some 0⟩ 110 [] 0).2.stop =
        (90 : ℚ) ∧
      (check_exit ⟨100, 90, 120, 1, 1, some 90, some 0⟩ 110 [] 0).2.target =
        (120 : ℚ) ∧
      (check_exit ⟨100, 90, 120, 1, 1, some 90, some 0⟩ 110 [] 0).2.size =
        (1 : ℤ) ∧
      (check_exit ⟨100, 90, 120, 1, 1, some 90, some 0⟩ 110 [] 0).2.confidence =
        (1 : ℚ) ∧
      (check_exit ⟨100, 90, 120, 1, 1, some 90, some 0⟩ 110 [] 0).2.entry_time =
        some (0 : ℚ)) ∧
     ((0 : ℚ) < 1 →
       (some (90 : ℚ)).getD 90 ≤
         (check_exit ⟨100, 90, 120, 1, 1, some 90, some 0⟩ 110 [] 0).2.trailing_stop.getD
           (check_exit ⟨100, 90, 120, 1, 1, some 90, some 0⟩ 110 [] 0).2.stop) ∧
     ((1 : ℚ) ≤ 0 →
       (check_exit ⟨100, 90, 120, 1, 1, some 90, some 0⟩ 110 [] 0).2.trailing_stop.getD
           (check_exit ⟨100, 90, 120, 1, 1, some 90, some 0⟩ 110 [] 0).2.stop ≤
         (some (90 : ℚ)).getD 90)) :=
  check_exit_frame_trailing ⟨100, 90, 120, 1, 1, some 90, some 0⟩ 110 [] 0

/-- C7.  `detect_regime` classifies by first-match order — `high_iv`
when the implied volatility exceeds 1.5 × the realized volatility,
otherwise `trend` when ATR as a fraction of the last close exceeds 1.5%
and RSI is strictly between 40 and 60, otherwise `mean_reversion` when
RSI is above 70 or below 30, otherwise `neutral` — and the reachable
exception sources inside its `try` (an empty frame at
`df["close"].iloc[-1]`, a malformed `"iv"` context entry) yield
`neutral`.  The hypothesis `0 ≤ realized` records the output range of
`realized_vol` (a standard deviation scaled by √252, or the 0.0
fallback); under it the float-truthiness guard `if implied and ...`
(line 95) cannot mask the claimed condition, since
`implied > 1.5·realized ≥ 0` forces `implied ≠ 0`. -/
theorem detect_regime_first_match (bars : List Bar) (ctx : RegimeCtx)
    (realized : ℚ) (hreal : 0 ≤ realized) :
    ((bars = [] ∨ ctx.iv = IvField.malformed) →
      detect_regime bars ctx realized = "neutral") ∧
    (∀ lastBar, bars.getLast? = some lastBar → ctx.iv ≠ IvField.malformed →
      ((realized * (3 / 2) < impliedOf ctx →
         detect_regime bars ctx realized = "high_iv") ∧
       (¬ realized * (3 / 2) < impliedOf ctx →
         ((3 / 200 < atrPctOf bars lastBar.close ∧
             40 < rsi (bars.map Bar.close) ∧ rsi (bars.map Bar.close) < 60 →
           detect_regime bars ctx realized = "trend") ∧
          (¬ (3 / 200 < atrPctOf bars lastBar.close ∧
              40 < rsi (bars.map Bar.close) ∧ rsi (bars.map Bar.close) < 60) →
            ((70 < rsi (bars.map Bar.close) ∨ rsi (bars.map Bar.close) < 30 →
               detect_regime bars ctx realized = "mean_reversion") ∧
             (¬ (70 < rsi (bars.map Bar.close) ∨ rsi (bars.map Bar.close) < 30) →
               detect_regime bars ctx realized = "neutral"))))))) := by
  obtain ⟨iv⟩ := ctx
  constructor
  · rintro (rfl | h)
    · rfl
    · have hiv : iv = IvField.malformed := h
      subst hiv
      unfold detect_regime
      cases hb : bars.getLast? <;> rfl
  · intro lastBar hb hmal
    have himp : realized * (3 / 2) < impliedOf ⟨iv⟩ → impliedOf ⟨iv⟩ ≠ 0 :=
      fun h1 => ne_of_gt (lt_of_le_of_lt (mul_nonneg hreal (by norm_num)) h1)
    unfold detect_regime
    rw [hb]
    cases iv with
    | malformed => exact absurd rfl hmal
    | missing =>
      refine ⟨fun h1 => ?_, fun h1 => ⟨fun h2 => ?_, fun h2 =>
        ⟨fun h3 => ?_, fun h3 => ?_⟩⟩⟩ <;>
        simp only [impliedOf] at himp h1 ⊢ <;>
        [ (rw [if_pos ⟨himp h1, h1⟩]);
          (rw [if_neg (fun hcon => h1 hcon.2), if_pos h2]);
          (rw [if_neg (fun hcon => h1 hcon.2), if_neg h2, if_pos h3]);
          (rw [if_neg (fun hcon => h1 hcon.2), if_neg h2, if_neg h3]) ]
    | value v =>
      refine ⟨fun h1 => ?_, fun h1 => ⟨fun h2 => ?_, fun h2 =>
        ⟨fun h3 => ?_, fun h3 => ?_⟩⟩⟩ <;>
        simp only [impliedOf] at himp h1 ⊢ <;>
        [ (rw [if_pos ⟨himp h1, h1⟩]);
          (rw [if_neg (fun hcon => h1 hcon.2), if_pos h2]);
          (rw [if_neg (fun hcon => h1 hcon.2), if_neg h2, if_pos h3]);
          (rw [if_neg (fun hcon => h1 hcon.2), if_neg h2, if_neg h3]) ]

/-- C7 witness: one bar, a context with implied volatility 10 and
realized volatility 1; the classifier fires the first branch and
returns `high_iv`. -/
theorem detect_regime_first_match_witness :
    detect_regime [⟨1, 1, 1, 1, 1⟩] ⟨IvField.value 10⟩ 1 = "high_iv" :=
  ((detect_regime_first_match [⟨1, 1, 1, 1, 1⟩] ⟨IvField.value 10⟩ 1
      (by norm_num)).2 ⟨1, 1, 1, 1, 1⟩ rfl (by simp)).1
    (by norm_num [impliedOf])

/-- Folding the backtest bar loop from an already-raised exception never
recovers: `Except.bind` on an error is the error. -/
theorem foldl_bind_error (l : List ℕ) (f : ℕ → Except String Unit)
    (e : String) :
    l.foldl (fun acc i => acc.bind (fun _ => f i)) (Except.error e) =
      Except.error e := by
  induction l with
  | nil => rfl
  | cons x xs ih => simpa using ih

/-- C4 (evaluation at the failing input).  For every non-empty bar
series, the backtest loop raises the `generate_signals` arity
`TypeError` at bar index 0 and terminates: no signal and no trade
decision is ever computed at any index, so the claimed no-look-ahead
dependence never gets to hold of an actual decision.  (The prefix slice
`df_bar = eq_df.loc[:ts]` at backtest.py line 138 is the intended
no-look-ahead window, but the call that would consume it cannot
execute.) -/
theorem run_backtest_never_computes_a_signal (bars : List Bar)
    (h : bars ≠ []) :
    runBacktestSymbol bars = Except.error generateSignalsArityError := by
  obtain ⟨b, bs, rfl⟩ := List.exists_cons_of_ne_nil h
  unfold runBacktestSymbol
  rw [List.length_cons, List.range_succ_eq_map, List.foldl_cons]
  exact foldl_bind_error _ _ _

/-- C4 witness: a one-bar series makes the loop raise at index 0. -/
theorem run_backtest_never_computes_a_signal_witness :
    runBacktestSymbol [⟨1, 1, 1, 1, 1⟩] =
      Except.error generateSignalsArityError :=
  run_backtest_never_computes_a_signal [⟨1, 1, 1, 1, 1⟩] (by simp)

/-- C9.  Every `generate_signals` call that passes the per-symbol
cooldown gate overwrites that symbol's `_last_signal_time` entry with
the captured `now` before returning — for every strategy outcome, ML
outcome (including ML rejection or a zero weighted score) and toggle
configuration, i.e. also when the returned signal is 0 — and leaves
every other symbol's entry untouched; a call blocked by the gate leaves
the whole state unchanged.  The state threaded here is the only module
state `signals.py` mutates (the strategy helpers operate on local
copies). -/
theorem generate_signals_cooldown_frame (st : SigState) (now : ℚ)
    (symbol : String) (stratVal : String → ℤ) (toggles : String → Bool)
    (weights : String → Option ℚ) (ml : MlOutcome) :
    (SIGNAL_COOLDOWN_SEC ≤ now - (st symbol).getD 0 →
      ((generate_signals st now symbol stratVal toggles weights ml).2 symbol =
          some now ∧
       ∀ s, s ≠ symbol →
         (generate_signals st now symbol stratVal toggles weights ml).2 s =
           st s)) ∧
    (now - (st symbol).getD 0 < SIGNAL_COOLDOWN_SEC →
      (generate_signals st now symbol stratVal toggles weights ml).2 = st) := by
  constructor
  · intro hge
    have h : ¬ now - (st symbol).getD 0 < SIGNAL_COOLDOWN_SEC := not_lt.mpr hge
    unfold generate_signals
    rw [if_neg h]
    exact ⟨by simp, fun s hs => by simp [hs]⟩
  · intro hlt
    unfold generate_signals
    rw [if_pos hlt]

/-- C9 witness: with no prior entry for "SPY" a call at time 500 passes
the gate even though the ML call raises (zero signal), stamps "SPY" with
500 and leaves "QQQ" untouched; with a prior stamp 450 the gate blocks
and the state is returned unchanged. -/
theorem generate_signals_cooldown_frame_witness :
    ((generate_signals (fun _ => none) 500 "SPY" (fun _ => 1)
        (fun _ => true) (fun _ => none) MlOutcome.exn).2 "SPY" =
        some 500 ∧
     (generate_signals (fun _ => none) 500 "SPY" (fun _ => 1)
        (fun _ => true) (fun _ => none) MlOutcome.exn).2 "QQQ" = none) ∧
    (generate_signals (fun _ => some 450) 500 "SPY" (fun _ => 1)
        (fun _ => true) (fun _ => none) MlOutcome.exn).2 =
      (fun _ => some 450) :=
  ⟨⟨((generate_signals_cooldown_frame (fun _ => none) 500 "SPY" (fun _ => 1)
        (fun _ => true) (fun _ => none) MlOutcome.exn).1
        (by norm_num [SIGNAL_COOLDOWN_SEC])).1,
    ((generate_signals_cooldown_frame (fun _ => none) 500 "SPY" (fun _ => 1)
        (fun _ => true) (fun _ => none) MlOutcome.exn).1
        (by norm_num [SIGNAL_COOLDOWN_SEC])).2 "QQQ" (by decide)⟩,
   (generate_signals_cooldown_frame (fun _ => some 450) 500 "SPY" (fun _ => 1)
        (fun _ => true) (fun _ => none) MlOutcome.exn).2
      (by norm_num [SIGNAL_COOLDOWN_SEC])⟩

/-- On a list of nonpositive rationals, the sum of absolute values is
the negated sum, and the sum is nonpositive. -/
theorem sum_map_abs_of_nonpos (l : List ℚ) (h : ∀ x ∈ l, x ≤ 0) :
    (l.map abs).sum = -l.sum ∧ l.sum ≤ 0 := by
  induction l with
  | nil => simp
  | cons x xs ih =>
    have hx := h x (by simp)
    have ih' := ih (fun y hy => h y (by simp [hy]))
    simp only [List.map_cons, List.sum_cons]
    constructor
    · rw [abs_of_nonpos hx, ih'.1]
      ring
    · have := ih'.2
      linarith

/-- The `pnl > 0` / `pnl ≤ 0` split of journal.py lines 135-136 is a
partition: every selected trade is a win or a loss, never both. -/
theorem wins_losses_length (trades : List JRecord) :
    (trades.filter (fun t => t.pnl > 0)).length +
      (trades.filter (fun t => t.pnl ≤ 0)).length = trades.length := by
  induction trades with
  | nil => rfl
  | cons t ts ih =>
    by_cases h : t.pnl > 0
    · rw [List.filter_cons, List.filter_cons, if_pos (by simpa using h),
        if_neg (by simpa using not_le.mpr h)]
      simp only [List.length_cons]
      omega
    · rw [List.filter_cons, List.filter_cons, if_neg (by simpa using h),
        if_pos (by simpa using not_lt.mp h)]
      simp only [List.length_cons]
      omega

/-- On a nonempty selection the code's unscaled expectancy equals the
claim's formula: `abs(mean(losses))` is the mean of the absolute losses
because every loss is ≤ 0, and the `avg_loss = 1` default for an empty
loss list carries weight `1 − win_rate = 0`. -/
theorem rawExpectancyCode_eq_claim (trades : List JRecord)
    (hne : trades.length ≠ 0) :
    rawExpectancyCode trades = claimRawExpectancy trades := by
  unfold rawExpectancyCode claimRawExpectancy
  simp only []
  have hmap : (trades.filter (fun t => t.pnl ≤ 0)).map (fun t => |t.pnl|) =
      ((trades.filter (fun t => t.pnl ≤ 0)).map JRecord.pnl).map abs := by
    rw [List.map_map]
    rfl
  rw [hmap]
  by_cases hl : trades.filter (fun t => t.pnl ≤ 0) = []
  · have hwin : (trades.filter (fun t => t.pnl > 0)).length =
        trades.length := by
      have hp := wins_losses_length trades
      rw [hl] at hp
      simpa using hp
    have hwr : (1 : ℚ) -
        (((trades.filter (fun t => t.pnl > 0)).map JRecord.pnl).length : ℚ) /
          (trades.length : ℚ) = 0 := by
      rw [List.length_map, hwin, div_self (by exact_mod_cast hne)]
      ring
    rw [hwr]
    ring
  · have hlenpos : 0 < (trades.filter (fun t => t.pnl ≤ 0)).length :=
      List.length_pos.mpr hl
    have hC : ¬ ((((trades.filter (fun t => t.pnl ≤ 0)).map
        JRecord.pnl)).isEmpty = true) := by
      simp [hl]
    have hK : ¬ (((((trades.filter (fun t => t.pnl ≤ 0)).map
        JRecord.pnl)).map abs).isEmpty = true) := by
      simp [hl]
    rw [if_neg hC, if_neg hK]
    have habs := sum_map_abs_of_nonpos
      ((trades.filter (fun t => t.pnl ≤ 0)).map JRecord.pnl)
      (by
        intro x hx
        obtain ⟨t, ht, rfl⟩ := List.mem_map.mp hx
        exact of_decide_eq_true (List.mem_filter.mp ht).2)
    have hlenpos' : (0 : ℚ) <
        (((trades.filter (fun t => t.pnl ≤ 0)).map JRecord.pnl).length : ℚ) := by
      rw [List.length_map]
      exact_mod_cast hlenpos
    rw [abs_div, abs_of_pos hlenpos', abs_of_nonpos habs.2, habs.1]
    simp only [List.length_map]

/-- C10.  With `0 < n < 10` matching closed trades, the expectancy
returned is the raw expectancy — win-rate × average win − (1 − win-rate)
× average absolute loss — scaled by `n/10`; at `n ≥ 10` the unscaled
value is returned; and a trade whose pnl is exactly 0 is classified as
a loss. -/
theorem calculate_expectancy_small_sample_shrink (journal : Journal)
    (strategy : String) (lookback : ℕ) :
    (0 < (selectedTrades journal strategy lookback).length →
      (selectedTrades journal strategy lookback).length < 10 →
      calculate_expectancy journal strategy lookback =
        claimRawExpectancy (selectedTrades journal strategy lookback) *
          (((selectedTrades journal strategy lookback).length : ℚ) / 10)) ∧
    (10 ≤ (selectedTrades journal strategy lookback).length →
      calculate_expectancy journal strategy lookback =
        claimRawExpectancy (selectedTrades journal strategy lookback)) ∧
    (∀ r ∈ selectedTrades journal strategy lookback, r.pnl = 0 →
      r ∈ (selectedTrades journal strategy lookback).filter
        (fun t => t.pnl ≤ 0)) := by
  refine ⟨?_, ?_, ?_⟩
  · intro hpos hlt
    simp only [calculate_expectancy]
    have hne : ¬ ((selectedTrades journal strategy lookback).isEmpty = true) := by
      simp only [List.isEmpty_iff]
      exact List.length_pos.mp hpos
    rw [if_neg hne, if_pos hlt, rawExpectancyCode_eq_claim _ (by omega)]
  · intro hge
    simp only [calculate_expectancy]
    have hne : ¬ ((selectedTrades journal strategy lookback).isEmpty = true) := by
      simp only [List.isEmpty_iff]
      exact List.length_pos.mp (by omega)
    rw [if_neg hne, if_neg (by omega), rawExpectancyCode_eq_claim _ (by omega)]
  · intro r hr hpnl
    exact List.mem_filter.mpr ⟨hr, by simp [hpnl]⟩

/-- C10 witness: a journal of 5 winning closed trades; the value
returned is the claim's raw expectancy scaled by 5/10. -/
theorem calculate_expectancy_small_sample_shrink_witness :
    calculate_expectancy [List.replicate 5 (some ⟨"breakout", true, 50⟩)]
        "all" 50 =
      claimRawExpectancy (selectedTrades
          [List.replicate 5 (some ⟨"breakout", true, 50⟩)] "all" 50) *
        (((selectedTrades [List.replicate 5 (some ⟨"breakout", true, 50⟩)]
            "all" 50).length : ℚ) / 10) :=
  (calculate_expectancy_small_sample_shrink
      [List.replicate 5 (some ⟨"breakout", true, 50⟩)] "all" 50).1
    (by decide) (by decide)

/-- C8 (amended).  Below the `OPTIMIZER_MIN_TRADES` line-count threshold
`update_weights` returns the weights unchanged and persists nothing; at
or above it the result is persisted and each strategy with a nonzero
expectancy gets `α·expectancy + (1−α)·previous` clamped to [-3, 3] —
but a strategy whose expectancy is exactly 0 keeps its previous weight
unchanged (the `exp != 0` guard at strategy_optimizer.py line 78). -/
theorem update_weights_gated (w : String → ℚ) (journal : Journal) :
    (tradeCount journal < OPTIMIZER_MIN_TRADES →
      update_weights w journal = (w, none)) ∧
    (OPTIMIZER_MIN_TRADES ≤ tradeCount journal →
      ((update_weights w journal).2 = some (update_weights w journal).1 ∧
       ∀ s ∈ strategyNames,
         (update_weights w journal).1 s =
           (if calculate_expectancy journal s 50 ≠ 0 then
              clampWeight (EXPECTANCY_SMOOTHING *
                  calculate_expectancy journal s 50 +
                (1 - EXPECTANCY_SMOOTHING) * w s)
            else w s))) := by
  constructor
  · intro h
    unfold update_weights
    rw [if_neg (not_le.mpr h)]
  · intro h
    unfold update_weights
    rw [if_pos h]
    exact ⟨rfl, fun s hs => by simp [hs]⟩

/-- C8 witness: a 9-line journal leaves the weights untouched and
persists nothing; a 10-line journal persists the updated weights. -/
theorem update_weights_gated_witness :
    update_weights (fun _ => (1 : ℚ))
        [List.replicate 9 (some ⟨"breakout", true, 50⟩)] =
      (fun _ => (1 : ℚ), none) ∧
    (update_weights (fun _ => (1 : ℚ))
        [List.replicate 10 (some ⟨"breakout", true, 50⟩)]).2 =
      some (update_weights (fun _ => (1 : ℚ))
        [List.replicate 10 (some ⟨"breakout", true, 50⟩)]).1 :=
  ⟨(update_weights_gated (fun _ => 1)
      [List.replicate 9 (some ⟨"breakout", true, 50⟩)]).1 (by decide),
   ((update_weights_gated (fun _ => 1)
      [List.replicate 10 (some ⟨"breakout", true, 50⟩)]).2 (by decide)).1⟩

/-- C8 (counterexample).  The claim "every strategy's weight becomes
α·expectancy + (1−α)·previous, clamped" fails above the threshold for a
strategy with zero expectancy: on a 10-trade journal of `"breakout"`
wins, `"vwap_ema_trend"` has expectancy 0, the claim's formula gives
0.2·0 + 0.8·1 = 0.8, but the code keeps the previous weight 1. -/
theorem update_weights_zero_expectancy_cex :
    OPTIMIZER_MIN_TRADES ≤
      tradeCount [List.replicate 10 (some ⟨"breakout", true, 50⟩)] ∧
    (update_weights (fun _ => (1 : ℚ))
        [List.replicate 10 (some ⟨"breakout", true, 50⟩)]).1 "vwap_ema_trend" =
      1 ∧
    clampWeight (EXPECTANCY_SMOOTHING *
        calculate_expectancy [List.replicate 10 (some ⟨"breakout", true, 50⟩)]
          "vwap_ema_trend" 50 +
      (1 - EXPECTANCY_SMOOTHING) * 1) = 4 / 5 ∧
    (1 : ℚ) ≠ 4 / 5 := by
  have h0 : calculate_expectancy
      [List.replicate 10 (some ⟨"breakout", true, 50⟩)]
      "vwap_ema_trend" 50 = 0 := by rfl
  refine ⟨by decide, by rfl, ?_, by norm_num⟩
  rw [h0]
  norm_num [clampWeight, EXPECTANCY_SMOOTHING]

end AutoTrader
